import Mathlib

/-!
Verification of the AIAgentHub session/credential proxy and its local
record store, shallowly embedded from the TypeScript source
(`src/server/storage.ts`, the route drafts in `src/server/routes.ts`,
and the variant draft with the demo branch and list fallback).

Conventions of the embedding:
* JavaScript `Map<number, T>` becomes an association list `List (Nat × T)`
  with `Map.set` semantics (`mapSet`): replace in place when the key is
  present, append otherwise, matching the insertion-order iteration of a
  JavaScript Map.
* A value that may be the JS `undefined`/`null` is an `Option`; the JS
  truthiness test on a string-or-undefined value is `isTruthyStr`, and
  the JS `a || b` on such values is `jsOrStr`.
* Wall-clock reads (`Date.now()` / `new Date()`) consume successive
  entries of an explicit clock trace `List Nat` via `tick`; each textual
  occurrence of a clock read in the source is one `tick`.
* The single outbound `fetch` of a handler is an oracle argument
  (`FetchResult` / `ListFetch` / `CreateFetch`) describing the network
  outcome and the parse outcome of the response body; the URLs actually
  fetched are logged in the `calls` field of the handler result.
-/

/-- JS truthiness of a string-or-undefined value: `undefined`, `null` and
the empty string are falsy, every other string truthy. -/
def isTruthyStr (o : Option String) : Bool :=
  match o with
  | some s => s ≠ ""
  | none => false

/-- JS `a || b` on string-or-undefined values: yields `a` when `a` is
truthy, otherwise yields `b` unchanged. -/
def jsOrStr (a b : Option String) : Option String :=
  if isTruthyStr a then a else b

/-- JS `x || null` on a string-or-undefined value. -/
def jsOrNull (a : Option String) : Option String :=
  if isTruthyStr a then a else none

/-- One wall-clock read: consume the head of the clock trace (0 when the
trace is exhausted). -/
def tick : List Nat → Nat × List Nat
  | [] => (0, [])
  | t :: ts => (t, ts)

/-- `Map.get`: first entry with the given key. -/
def mapGet {α : Type} (m : List (Nat × α)) (k : Nat) : Option α :=
  (m.find? (fun p => p.1 = k)).map (fun p => p.2)

/-- `Map.set`: replace in place when the key is present, append otherwise
(JS Maps keep the original position of an overwritten key). -/
def mapSet {α : Type} (m : List (Nat × α)) (k : Nat) (v : α) : List (Nat × α) :=
  if m.any (fun p => p.1 = k) then
    m.map (fun p => if p.1 = k then (k, v) else p)
  else
    m ++ [(k, v)]

/-- `Map.delete`: remove every entry with the given key. -/
def mapDelete {α : Type} (m : List (Nat × α)) (k : Nat) : List (Nat × α) :=
  m.filter (fun p => p.1 ≠ k)

/-- Number of entries of the map holding the given key. -/
def countKey {α : Type} (m : List (Nat × α)) (k : Nat) : Nat :=
  (m.filter (fun p => p.1 = k)).length

/-- `users` table row (`shared/schema`). -/
structure User where
  id : Nat
  username : String
  password : String
deriving DecidableEq

/-- Login/insert payload for a user. -/
structure InsertUser where
  username : String
  password : String
deriving DecidableEq

/-- `sessions` table row; timestamps are epoch milliseconds. -/
structure Session where
  id : Nat
  userId : Nat
  accessToken : String
  refreshToken : Option String
  expiresAt : Nat
  createdAt : Nat
deriving DecidableEq

/-- Insert payload for `createSession` (`id`/`createdAt` omitted). -/
structure InsertSession where
  userId : Nat
  accessToken : String
  refreshToken : Option String
  expiresAt : Nat
deriving DecidableEq

/-- A stored agent record, modelled as the runtime JS object: the seeded
demo records carry the snake_case keys (`prompt`, `first_message`,
`created_by`) and lack `name`/`firstMessage`/`createdBy`, while records
made by `createAgent` carry the camelCase keys; absent keys are `none`. -/
structure Agent where
  id : Nat
  name : Option String
  description : String
  firstMessage : Option String
  createdBy : Option String
  prompt : Option String
  first_message : Option String
  created_by : Option String
  externalId : Option String
  created_at : Nat
deriving DecidableEq

/-- Insert payload for `createAgent`: the four schema fields, plus the
optional `externalId` that the external-create route passes along. -/
structure InsertAgent where
  name : String
  description : String
  firstMessage : String
  createdBy : String
  externalId : Option String
deriving DecidableEq

/-- Partial update payload, the output of `insertAgentSchema.partial()`
on a JSON body: each field is present (`some`) or absent (`none`). -/
structure AgentPatch where
  name : Option String := none
  description : Option String := none
  firstMessage : Option String := none
  createdBy : Option String := none
deriving DecidableEq

/-- The object-spread merge `{...existingAgent, ...updateData}`: a key
present in the patch overrides the stored value. -/
def mergeAgent (a : Agent) (p : AgentPatch) : Agent :=
  { a with
    name := match p.name with | some v => some v | none => a.name
    description := match p.description with | some v => v | none => a.description
    firstMessage := match p.firstMessage with | some v => some v | none => a.firstMessage
    createdBy := match p.createdBy with | some v => some v | none => a.createdBy }

/-- The `MemStorage` state (`src/server/storage.ts`): three JS Maps and
three monotonic id counters. -/
structure MemStorage where
  users : List (Nat × User)
  sessions : List (Nat × Session)
  agents : List (Nat × Agent)
  currentUserId : Nat
  currentSessionId : Nat
  currentAgentId : Nat
deriving DecidableEq

/-- The literal demo-agent seed data of `seedDemoAgents`, in source
order: prompt, description, first_message, created_by. -/
def demoAgentsData : List (String × String × String × String) :=
  [("Customer Support Agent",
    "Handles customer inquiries and support tickets",
    "Hello! I\x27m here to help you with any questions or issues you may have.",
    "admin"),
   ("Sales Assistant",
    "Helps with product information and sales inquiries",
    "Hi there! I can help you find the perfect product for your needs.",
    "admin"),
   ("Technical Support",
    "Provides technical assistance and troubleshooting",
    "Welcome! I\x27m here to help resolve any technical issues you\x27re experiencing.",
    "admin")]

/-- `seedDemoAgents`: forEach over the seed data, assigning
`currentAgentId++` and stamping `externalId: null`, `created_at: now`. -/
def seedDemoAgents (s : MemStorage) (now : Nat) : MemStorage :=
  demoAgentsData.foldl
    (fun st ad =>
      let id := st.currentAgentId
      let agent : Agent :=
        { id := id
          name := none
          description := ad.2.1
          firstMessage := none
          createdBy := none
          prompt := some ad.1
          first_message := some ad.2.2.1
          created_by := some ad.2.2.2
          externalId := none
          created_at := now }
      { st with agents := mapSet st.agents id agent, currentAgentId := id + 1 })
    s

/-- The `MemStorage` constructor: empty maps, counters at 1, then the
demo-agent seeding. -/
def MemStorage.new (now : Nat) : MemStorage :=
  seedDemoAgents
    { users := [], sessions := [], agents := []
      currentUserId := 1, currentSessionId := 1, currentAgentId := 1 } now

def MemStorage.getUser (s : MemStorage) (id : Nat) : Option User :=
  mapGet s.users id

/-- `Array.from(this.users.values()).find(user => user.username === username)`. -/
def MemStorage.getUserByUsername (s : MemStorage) (username : String) : Option User :=
  (s.users.map (fun p => p.2)).find? (fun u => u.username = username)

def MemStorage.createUser (s : MemStorage) (iu : InsertUser) : User × MemStorage :=
  let id := s.currentUserId
  let user : User := { id := id, username := iu.username, password := iu.password }
  (user, { s with users := mapSet s.users id user, currentUserId := id + 1 })

/-- `createSession`: keyed by `userId` (not by the session id), with
`refreshToken: insertSession.refreshToken || null` and `createdAt: new Date()`. -/
def MemStorage.createSession (s : MemStorage) (i : InsertSession) (now : Nat) :
    Session × MemStorage :=
  let id := s.currentSessionId
  let session : Session :=
    { id := id, userId := i.userId, accessToken := i.accessToken
      refreshToken := jsOrNull i.refreshToken
      expiresAt := i.expiresAt, createdAt := now }
  (session, { s with sessions := mapSet s.sessions i.userId session
                     currentSessionId := id + 1 })

def MemStorage.getSession (s : MemStorage) (userId : Nat) : Option Session :=
  mapGet s.sessions userId

def MemStorage.deleteSession (s : MemStorage) (userId : Nat) : MemStorage :=
  { s with sessions := mapDelete s.sessions userId }

/-- `Array.from(this.agents.values())`: the values in insertion order. -/
def MemStorage.getAgents (s : MemStorage) : List Agent :=
  s.agents.map (fun p => p.2)

def MemStorage.getAgent (s : MemStorage) (id : Nat) : Option Agent :=
  mapGet s.agents id

/-- `createAgent`: assigns `currentAgentId++`, stamps
`externalId: insertAgent.externalId || null` and `created_at: new Date()`. -/
def MemStorage.createAgent (s : MemStorage) (ia : InsertAgent) (now : Nat) :
    Agent × MemStorage :=
  let id := s.currentAgentId
  let agent : Agent :=
    { id := id
      name := some ia.name
      description := ia.description
      firstMessage := some ia.firstMessage
      createdBy := some ia.createdBy
      prompt := none
      first_message := none
      created_by := none
      externalId := jsOrNull ia.externalId
      created_at := now }
  (agent, { s with agents := mapSet s.agents id agent, currentAgentId := id + 1 })

/-- `updateAgent`: absent id yields `undefined` and leaves the store
untouched; otherwise the object-spread shallow merge is stored back. -/
def MemStorage.updateAgent (s : MemStorage) (id : Nat) (p : AgentPatch) :
    Option Agent × MemStorage :=
  match mapGet s.agents id with
  | none => (none, s)
  | some existing =>
      let updated := mergeAgent existing p
      (some updated, { s with agents := mapSet s.agents id updated })

def MemStorage.deleteAgent (s : MemStorage) (id : Nat) : MemStorage :=
  { s with agents := mapDelete s.agents id }

/-- One mutating store operation, for stating invariants over arbitrary
operation sequences (reads are pure and cannot change the state). -/
inductive StoreOp where
  | createUserOp (iu : InsertUser)
  | createSessionOp (i : InsertSession) (now : Nat)
  | deleteSessionOp (userId : Nat)
  | createAgentOp (ia : InsertAgent) (now : Nat)
  | updateAgentOp (id : Nat) (p : AgentPatch)
  | deleteAgentOp (id : Nat)

def applyOp (s : MemStorage) : StoreOp → MemStorage
  | .createUserOp iu => (s.createUser iu).2
  | .createSessionOp i now => (s.createSession i now).2
  | .deleteSessionOp userId => s.deleteSession userId
  | .createAgentOp ia now => (s.createAgent ia now).2
  | .updateAgentOp id p => (s.updateAgent id p).2
  | .deleteAgentOp id => s.deleteAgent id

def applyOps (s : MemStorage) (ops : List StoreOp) : MemStorage :=
  ops.foldl applyOp s

/-! ## HTTP handler embeddings -/

/-- The parse outcome of an upstream login response body. -/
structure AuthJson where
  data_accessToken : Option String
  data_refreshToken : Option String
  access_token : Option String
  refresh_token : Option String
deriving DecidableEq

/-- Outcome of the outbound login fetch: a rejected promise, or a
response with its HTTP status and the JSON-parse outcome of its text. -/
inductive FetchResult where
  | transportError
  | response (status : Nat) (body : Option AuthJson)

/-- `response.ok`: status in the 2xx range. -/
def respOk (status : Nat) : Bool :=
  200 ≤ status ∧ status < 300

def getTokenURL : String :=
  "https://ai.metqm.com/api/adminportal/get_accesstoken.cfm"

def agentListURL : String :=
  "https://ai.metqm.com/api/adminportal/get_agentlist_r1.cfm"

def addAgentURL : String :=
  "https://ai.metqm.com/api/adminportal/put_addagent.cfm"

def editAgentURL : String :=
  "https://ai.metqm.com/api/adminportal/put_editagent.cfm"

/-- Body of a login response: the success shape or an error message. -/
inductive LoginBody where
  | ok (userId : Nat) (username : String)
  | err (message : String)
deriving DecidableEq

/-- Observable outcome of a login handler: HTTP status, JSON body, the
`auth_token` cookie set (if any), the outbound URLs fetched, and the
resulting store state. -/
structure LoginOut where
  status : Nat
  body : LoginBody
  cookie : Option String
  calls : List String
  store : MemStorage
deriving DecidableEq

/-- POST /api/auth/login of the first draft in `src/server/routes.ts`
(lines 9-110): no demo branch; the access/refresh tokens are taken from
`authData.data?.accessToken || authData.access_token` and
`authData.data?.refreshToken || authData.refresh_token`. -/
def loginR1 (username password : String) (oracle : FetchResult)
    (s : MemStorage) (clock : List Nat) : LoginOut :=
  if username = "" ∨ password = "" then
    { status := 400, body := .err ("Validation error"), cookie := none
      calls := [], store := s }
  else
    match oracle with
    | .transportError =>
        { status := 500
          body := .err ("Internal server error. Please try again later.")
          cookie := none, calls := [getTokenURL], store := s }
    | .response st pb =>
        if ¬ respOk st then
          { status := 401
            body := .err ("Authentication failed. Please check your credentials.")
            cookie := none, calls := [getTokenURL], store := s }
        else
          match pb with
          | none =>
              { status := 401
                body := .err ("Authentication server returned invalid response format.")
                cookie := none, calls := [getTokenURL], store := s }
          | some j =>
              let accessToken := jsOrStr j.data_accessToken j.access_token
              let refreshToken := jsOrStr j.data_refreshToken j.refresh_token
              if ¬ isTruthyStr accessToken then
                { status := 401
                  body := .err ("Authentication failed. No access token received.")
                  cookie := none, calls := [getTokenURL], store := s }
              else
                let tok := accessToken.getD ""
                let us : User × MemStorage :=
                  match s.getUserByUsername username with
                  | some u => (u, s)
                  | none => s.createUser { username := username, password := password }
                let t0c := tick clock
                let t1c := tick t0c.2
                let s2 := (us.2.createSession
                  { userId := us.1.id, accessToken := tok
                    refreshToken := jsOrNull refreshToken
                    expiresAt := t0c.1 + 86400000 } t1c.1).2
                { status := 200, body := .ok us.1.id username
                  cookie := some tok, calls := [getTokenURL], store := s2 }

/-- POST /api/auth/login of the variant draft (`src/unnamed/part_003`,
lines 9-134): literal demo-credential branch first, then the generic
path whose token check is flat-only (`authData.access_token`). The demo
branch reads the clock once for the session expiry base, once for the
session token, once for the session `createdAt`, and once more for the
cookie value — two independent `Date.now()` reads mint the session token
and the cookie value. -/
def loginP3 (username password : String) (oracle : FetchResult)
    (s : MemStorage) (clock : List Nat) : LoginOut :=
  if username = "" ∨ password = "" then
    { status := 400, body := .err ("Validation error"), cookie := none
      calls := [], store := s }
  else if username = "testuser" ∧ password = "password123" then
    let us : User × MemStorage :=
      match s.getUserByUsername username with
      | some u => (u, s)
      | none => s.createUser { username := username, password := password }
    let t0c := tick clock
    let t1c := tick t0c.2
    let t2c := tick t1c.2
    let s2 := (us.2.createSession
      { userId := us.1.id
        accessToken := "demo_token_" ++ toString t1c.1
        refreshToken := none
        expiresAt := t0c.1 + 86400000 } t2c.1).2
    let t3c := tick t2c.2
    { status := 200, body := .ok us.1.id us.1.username
      cookie := some ("demo_token_" ++ toString t3c.1)
      calls := [], store := s2 }
  else
    match oracle with
    | .transportError =>
        { status := 500
          body := .err ("Internal server error. Please try again later.")
          cookie := none, calls := [getTokenURL], store := s }
    | .response st pb =>
        if ¬ respOk st then
          { status := 401
            body := .err ("Authentication failed. Please check your credentials.")
            cookie := none, calls := [getTokenURL], store := s }
        else
          match pb with
          | none =>
              { status := 401
                body := .err ("Authentication server returned invalid response format. Try demo credentials: testuser/password123")
                cookie := none, calls := [getTokenURL], store := s }
          | some j =>
              if ¬ isTruthyStr j.access_token then
                { status := 401
                  body := .err ("Authentication failed. Invalid response from server.")
                  cookie := none, calls := [getTokenURL], store := s }
              else
                let tok := j.access_token.getD ""
                let us : User × MemStorage :=
                  match s.getUserByUsername username with
                  | some u => (u, s)
                  | none => s.createUser { username := username, password := password }
                let t0c := tick clock
                let t1c := tick t0c.2
                let s2 := (us.2.createSession
                  { userId := us.1.id, accessToken := tok
                    refreshToken := jsOrNull j.refresh_token
                    expiresAt := t0c.1 + 86400000 } t1c.1).2
                { status := 200, body := .ok us.1.id us.1.username
                  cookie := some tok, calls := [getTokenURL], store := s2 }

/-- Outcome of the outbound agent-list fetch: the parse outcome of a 2xx
body is an opaque payload blob (`none` when `response.json()` throws). -/
inductive ListFetch where
  | transportError
  | response (status : Nat) (body : Option String)

/-- Body of a GET /api/agents response. -/
inductive ListBody where
  | err (message : String)
  | localList (l : List Agent)
  | remoteList (payload : String)
deriving DecidableEq

structure ListOut where
  status : Nat
  body : ListBody
  calls : List String
deriving DecidableEq

/-- GET /api/agents of the first draft in `src/server/routes.ts`
(lines 144-179): a failing upstream is forwarded as a failure — non-2xx
forwards the upstream status, a transport error or an unparsable body
yields 500. No fallback to the local store. -/
def getAgentsR1 (cookie : Option String) (oracle : ListFetch)
    (s : MemStorage) : ListOut :=
  if ¬ isTruthyStr cookie then
    { status := 401, body := .err ("Not authenticated"), calls := [] }
  else
    match oracle with
    | .transportError =>
        { status := 500, body := .err ("Error connecting to agent API")
          calls := [agentListURL] }
    | .response st pb =>
        if ¬ respOk st then
          { status := st, body := .err ("Failed to fetch agents from API")
            calls := [agentListURL] }
        else
          match pb with
          | none =>
              { status := 500, body := .err ("Error connecting to agent API")
                calls := [agentListURL] }
          | some payload =>
              { status := 200, body := .remoteList payload, calls := [agentListURL] }

/-- GET /api/agents of the variant draft (`src/unnamed/part_003`, lines
168-211): a token with the demo prefix short-circuits to the local list;
otherwise any upstream failure (non-2xx, transport error, unparsable
body) falls back to the local list with HTTP 200. -/
def getAgentsP3 (cookie : Option String) (oracle : ListFetch)
    (s : MemStorage) : ListOut :=
  if ¬ isTruthyStr cookie then
    { status := 401, body := .err ("Not authenticated"), calls := [] }
  else
    let token := cookie.getD ""
    if token.startsWith ("demo_token_") then
      { status := 200, body := .localList s.getAgents, calls := [] }
    else
      match oracle with
      | .transportError =>
          { status := 200, body := .localList s.getAgents, calls := [agentListURL] }
      | .response st pb =>
          if ¬ respOk st then
            { status := 200, body := .localList s.getAgents, calls := [agentListURL] }
          else
            match pb with
            | none =>
                { status := 200, body := .localList s.getAgents, calls := [agentListURL] }
            | some payload =>
                { status := 200, body := .remoteList payload, calls := [agentListURL] }

/-- Request body of the create/update agent routes after schema
validation: the four required schema fields. -/
structure AgentIn where
  name : String
  description : String
  firstMessage : String
  createdBy : String
deriving DecidableEq

/-- Parsed body of an upstream create/update response. -/
structure UpstreamResult where
  success : Bool
  error : Option String
  dataId : Option Nat
deriving DecidableEq

/-- Outcome of the outbound create/update fetch. -/
inductive CreateFetch where
  | transportError
  | response (status : Nat) (body : Option UpstreamResult)

/-- Body of a POST /api/agents response. -/
inductive CreateBody where
  | err (message : String)
  | created (agent : Agent) (externalDataId : Nat)
deriving DecidableEq

structure CreateOut where
  status : Nat
  body : CreateBody
  calls : List String
  store : MemStorage
deriving DecidableEq

/-- POST /api/agents of the first draft in `src/server/routes.ts`
(lines 182-255): forwards the create to the upstream API; a 2xx body
with a falsy `success` yields 400 with `apiResult.error` (or the default
text) and no local write; only on upstream success is a local record
created, with `externalId` set to the stringified upstream id. A missing
`data.id` throws and is caught by the outer handler as 500. -/
def createAgentR1 (cookie : Option String) (body : Option AgentIn)
    (oracle : CreateFetch) (s : MemStorage) (clock : List Nat) : CreateOut :=
  if ¬ isTruthyStr cookie then
    { status := 401, body := .err ("Not authenticated"), calls := [], store := s }
  else
    match body with
    | none =>
        { status := 400, body := .err ("Validation error"), calls := [], store := s }
    | some a =>
        match oracle with
        | .transportError =>
            { status := 500, body := .err ("Error creating agent")
              calls := [addAgentURL], store := s }
        | .response st pb =>
            if ¬ respOk st then
              { status := st, body := .err ("Failed to create agent via external API")
                calls := [addAgentURL], store := s }
            else
              match pb with
              | none =>
                  { status := 500, body := .err ("Error creating agent")
                    calls := [addAgentURL], store := s }
              | some apiResult =>
                  if ¬ apiResult.success then
                    { status := 400
                      body := .err (match jsOrNull apiResult.error with
                        | some e => e
                        | none => "Failed to create agent")
                      calls := [addAgentURL], store := s }
                  else
                    match apiResult.dataId with
                    | none =>
                        { status := 500, body := .err ("Error creating agent")
                          calls := [addAgentURL], store := s }
                    | some eid =>
                        let tc := tick clock
                        let r := s.createAgent
                          { name := a.name, description := a.description
                            firstMessage := a.firstMessage, createdBy := a.createdBy
                            externalId := some (toString eid) } tc.1
                        { status := 201, body := .created r.1 eid
                          calls := [addAgentURL], store := r.2 }

/-- Body of a PATCH /api/agents/:id response. -/
inductive UpdateBody where
  | err (message : String)
  | updated (agent : Option Agent)
deriving DecidableEq

structure UpdateOut where
  status : Nat
  body : UpdateBody
  calls : List String
  store : MemStorage
deriving DecidableEq

/-- PATCH /api/agents/:id of the first draft in `src/server/routes.ts`
(lines 258-360): fetches the existing record first and answers 404 when
it is absent, before any upstream call and without touching the store;
otherwise forwards the edit upstream and applies the partial merge
locally only after upstream success. -/
def updateAgentR1 (cookie : Option String) (agentId : Nat)
    (body : Option AgentPatch) (oracle : CreateFetch)
    (s : MemStorage) : UpdateOut :=
  if ¬ isTruthyStr cookie then
    { status := 401, body := .err ("Not authenticated"), calls := [], store := s }
  else
    match body with
    | none =>
        { status := 400, body := .err ("Validation error"), calls := [], store := s }
    | some p =>
        match s.getAgent agentId with
        | none =>
            { status := 404, body := .err ("Agent not found"), calls := [], store := s }
        | some _ =>
            match oracle with
            | .transportError =>
                { status := 500, body := .err ("Error updating agent")
                  calls := [editAgentURL], store := s }
            | .response st pb =>
                if ¬ respOk st then
                  { status := st
                    body := .err ("Failed to update agent via external API")
                    calls := [editAgentURL], store := s }
                else
                  match pb with
                  | none =>
                      { status := 500
                        body := .err ("External API returned invalid JSON response")
                        calls := [editAgentURL], store := s }
                  | some apiResult =>
                      if ¬ apiResult.success then
                        { status := 400
                          body := .err (match jsOrNull apiResult.error with
                            | some e => e
                            | none => "Failed to update agent")
                          calls := [editAgentURL], store := s }
                      else
                        let r := s.updateAgent agentId p
                        { status := 200, body := .updated r.1
                          calls := [editAgentURL], store := r.2 }

/-- Body of a GET /api/auth/me response. -/
inductive MeBody where
  | err (message : String)
  | authenticated (flag : Bool)
deriving DecidableEq

structure MeOut where
  status : Nat
  body : MeBody
deriving DecidableEq

/-- GET /api/auth/me (`src/server/routes.ts`, lines 124-139; identical
in every draft): a falsy cookie yields 401, any other cookie yields
200 with `authenticated: true`. The store parameter reflects that the
handler runs against a session store; the code never reads it. -/
def authMeR1 (cookie : Option String) (s : MemStorage) : MeOut :=
  if ¬ isTruthyStr cookie then
    { status := 401, body := .err ("Not authenticated") }
  else
    { status := 200, body := .authenticated true }
/-! ## Map and store lemmas -/

theorem countKey_cons {α : Type} (p : Nat × α) (t : List (Nat × α)) (u : Nat) :
    countKey (p :: t) u = countKey t u + (if p.1 = u then 1 else 0) := by
  by_cases h : p.1 = u <;>
    simp [countKey, List.filter_cons, h, Nat.add_comm]

theorem countKey_append {α : Type} (m l : List (Nat × α)) (u : Nat) :
    countKey (m ++ l) u = countKey m u + countKey l u := by
  simp [countKey, List.filter_append]

theorem countKey_singleton {α : Type} (k : Nat) (v : α) (u : Nat) :
    countKey [(k, v)] u = if k = u then 1 else 0 := by
  by_cases h : k = u <;> simp [countKey, List.filter_cons, h]

theorem countKey_eq_zero {α : Type} {m : List (Nat × α)} {k : Nat}
    (h : m.any (fun p => p.1 = k) = false) : countKey m k = 0 := by
  induction m with
  | nil => rfl
  | cons p t ih =>
    simp only [List.any_cons, Bool.or_eq_false_iff] at h
    have hp : ¬ p.1 = k := by simpa using h.1
    simp [countKey_cons, ih h.2, hp]

theorem countKey_pos_of_mem {α : Type} {m : List (Nat × α)} {k : Nat} {p : Nat × α}
    (hp : p ∈ m) (hk : p.1 = k) : 0 < countKey m k := by
  have : p ∈ m.filter (fun p => p.1 = k) :=
    List.mem_filter.mpr ⟨hp, by simpa using hk⟩
  unfold countKey
  exact List.length_pos.mpr (List.ne_nil_of_mem this)

theorem countKey_map_replace {α : Type} (m : List (Nat × α)) (k : Nat) (v : α) (u : Nat) :
    countKey (m.map (fun p => if p.1 = k then (k, v) else p)) u = countKey m u := by
  induction m with
  | nil => rfl
  | cons p t ih =>
    by_cases hk : p.1 = k <;>
      simp [countKey_cons, hk, ih]

theorem countKey_mapSet_self {α : Type} {m : List (Nat × α)} {k : Nat} (v : α)
    (h : countKey m k ≤ 1) : countKey (mapSet m k v) k = 1 := by
  unfold mapSet
  by_cases ha : m.any (fun p => p.1 = k) = true
  · rw [if_pos ha, countKey_map_replace]
    rcases List.any_eq_true.mp ha with ⟨p, hp, hpk⟩
    have := countKey_pos_of_mem hp (by simpa using hpk)
    omega
  · have hf : m.any (fun p => p.1 = k) = false := Bool.eq_false_iff.mpr ha
    rw [if_neg ha, countKey_append, countKey_eq_zero hf, countKey_singleton,
      if_pos rfl]

theorem countKey_mapSet_le {α : Type} {m : List (Nat × α)} {k u : Nat} (v : α)
    (h : countKey m u ≤ 1) : countKey (mapSet m k v) u ≤ 1 := by
  unfold mapSet
  by_cases ha : m.any (fun p => p.1 = k) = true
  · rw [if_pos ha, countKey_map_replace]; exact h
  · have hf : m.any (fun p => p.1 = k) = false := Bool.eq_false_iff.mpr ha
    rw [if_neg ha, countKey_append, countKey_singleton]
    by_cases hku : k = u
    · have h0 : countKey m u = 0 := countKey_eq_zero (hku ▸ hf)
      rw [h0, if_pos hku]
    · rw [if_neg hku]; omega

theorem countKey_mapDelete_le {α : Type} (m : List (Nat × α)) (k u : Nat) :
    countKey (mapDelete m k) u ≤ countKey m u := by
  unfold countKey mapDelete
  exact List.Sublist.length_le (List.Sublist.filter _ (List.filter_sublist m))

theorem mapGet_cons_ne {α : Type} {p : Nat × α} {t : List (Nat × α)} {k : Nat}
    (hp : ¬ p.1 = k) : mapGet (p :: t) k = mapGet t k := by
  unfold mapGet
  rw [List.find?_cons_of_neg _ (by simpa using hp)]

theorem mapGet_cons_eq {α : Type} {p : Nat × α} {t : List (Nat × α)} {k : Nat}
    (hp : p.1 = k) : mapGet (p :: t) k = some p.2 := by
  unfold mapGet
  rw [List.find?_cons_of_pos _ (by simpa using hp)]
  rfl

theorem mapGet_map_replace {α : Type} (m : List (Nat × α)) (k : Nat) (v : α) :
    m.any (fun p => p.1 = k) = true →
    mapGet (m.map (fun p => if p.1 = k then (k, v) else p)) k = some v := by
  induction m with
  | nil => intro ha; simp at ha
  | cons p t ih =>
    intro ha
    by_cases hp : p.1 = k
    · rw [List.map_cons, if_pos hp, mapGet_cons_eq rfl]
    · rw [List.map_cons, if_neg hp, mapGet_cons_ne hp]
      apply ih
      simp only [List.any_cons] at ha
      rcases Bool.or_eq_true_iff.mp ha with h1 | h2
      · exact absurd (by simpa using h1) hp
      · exact h2

theorem mapGet_append_new {α : Type} (m : List (Nat × α)) (k : Nat) (v : α) :
    m.any (fun p => p.1 = k) = false → mapGet (m ++ [(k, v)]) k = some v := by
  induction m with
  | nil =>
    intro _
    simpa using mapGet_cons_eq (p := (k, v)) (t := ([] : List (Nat × α))) rfl
  | cons p t ih =>
    intro hf
    simp only [List.any_cons, Bool.or_eq_false_iff] at hf
    have hp : ¬ p.1 = k := by simpa using hf.1
    rw [List.cons_append, mapGet_cons_ne hp]
    exact ih hf.2

theorem mapGet_mapSet_self {α : Type} (m : List (Nat × α)) (k : Nat) (v : α) :
    mapGet (mapSet m k v) k = some v := by
  unfold mapSet
  by_cases ha : m.any (fun p => p.1 = k) = true
  · rw [if_pos ha]; exact mapGet_map_replace m k v ha
  · have hf : m.any (fun p => p.1 = k) = false := Bool.eq_false_iff.mpr ha
    rw [if_neg ha]; exact mapGet_append_new m k v hf

theorem mapGet_some_mem {α : Type} {m : List (Nat × α)} {k : Nat} {a : α}
    (h : mapGet m k = some a) : (k, a) ∈ m := by
  unfold mapGet at h
  rcases Option.map_eq_some'.mp h with ⟨q, hq, hqa⟩
  have hmem := List.mem_of_find?_eq_some hq
  have hkey : q.1 = k := by
    have := List.find?_some hq
    simpa using this
  have hqe : q = (k, a) := by
    cases q
    simp only at hkey hqa
    simp [hkey, hqa]
  exact hqe ▸ hmem

theorem mem_mapSet {α : Type} {m : List (Nat × α)} {k : Nat} {v : α} {p : Nat × α}
    (h : p ∈ mapSet m k v) : p = (k, v) ∨ p ∈ m := by
  unfold mapSet at h
  by_cases ha : m.any (fun p => p.1 = k) = true
  · rw [if_pos ha] at h
    rcases List.mem_map.mp h with ⟨q, hq, hqe⟩
    by_cases hqk : q.1 = k
    · left; rw [← hqe]; simp [hqk]
    · right; rw [← hqe]; simpa [hqk] using hq
  · rw [if_neg ha] at h
    rcases List.mem_append.mp h with h1 | h2
    · right; exact h1
    · left; simpa using h2

theorem mapSet_of_any_false {α : Type} {m : List (Nat × α)} {k : Nat} (v : α)
    (h : m.any (fun p => p.1 = k) = false) : mapSet m k v = m ++ [(k, v)] := by
  simp [mapSet, h]

/-- The sessions map holds at most one entry per key. -/
def sessionsInv (s : MemStorage) : Prop :=
  ∀ u, countKey s.sessions u ≤ 1

/-- Every key of the agents map is below the next agent id. -/
def agentKeysInv (s : MemStorage) : Prop :=
  ∀ p ∈ s.agents, p.1 < s.currentAgentId

theorem sessionsInv_new (now : Nat) : sessionsInv (MemStorage.new now) := by
  intro u
  rw [show (MemStorage.new now).sessions = [] from rfl]
  simp [countKey]

theorem agentKeysInv_new (now : Nat) : agentKeysInv (MemStorage.new now) := by
  intro p hp
  have hk : p.1 ∈ (MemStorage.new now).agents.map Prod.fst :=
    List.mem_map_of_mem _ hp
  rw [show (MemStorage.new now).agents.map Prod.fst = [1, 2, 3] from rfl] at hk
  rw [show (MemStorage.new now).currentAgentId = 4 from rfl]
  simp only [List.mem_cons, List.not_mem_nil, or_false] at hk
  rcases hk with h | h | h <;> omega

theorem updateAgent_sessions (s : MemStorage) (id : Nat) (p : AgentPatch) :
    (s.updateAgent id p).2.sessions = s.sessions := by
  unfold MemStorage.updateAgent
  cases mapGet s.agents id <;> rfl

theorem sessionsInv_applyOp {s : MemStorage} (h : sessionsInv s) (op : StoreOp) :
    sessionsInv (applyOp s op) := by
  intro u
  cases op with
  | createUserOp iu => exact h u
  | createSessionOp i now =>
    exact countKey_mapSet_le _ (h u)
  | deleteSessionOp userId =>
    exact Nat.le_trans (countKey_mapDelete_le _ _ _) (h u)
  | createAgentOp ia now => exact h u
  | updateAgentOp id p =>
    rw [show (applyOp s (.updateAgentOp id p)).sessions = s.sessions from
      updateAgent_sessions s id p]
    exact h u
  | deleteAgentOp id => exact h u

theorem sessionsInv_applyOps (s : MemStorage) (h : sessionsInv s)
    (ops : List StoreOp) : sessionsInv (applyOps s ops) := by
  induction ops generalizing s with
  | nil => exact h
  | cons op rest ih =>
    exact ih (applyOp s op) (sessionsInv_applyOp h op)

theorem agentKeysInv_applyOp {s : MemStorage} (h : agentKeysInv s) (op : StoreOp) :
    agentKeysInv (applyOp s op) := by
  cases op with
  | createUserOp iu => exact h
  | createSessionOp i now => exact h
  | deleteSessionOp userId => exact h
  | createAgentOp ia now =>
    intro p hp
    simp only [applyOp, MemStorage.createAgent] at hp ⊢
    rcases mem_mapSet hp with he | hm
    · rw [he]; omega
    · have := h p hm
      omega
  | updateAgentOp id pch =>
    intro p hp
    simp only [applyOp, MemStorage.updateAgent] at hp ⊢
    cases hg : mapGet s.agents id with
    | none => rw [hg] at hp; exact h p hp
    | some existing =>
      rw [hg] at hp
      simp only at hp
      rcases mem_mapSet hp with he | hm
      · have hidlt : id < s.currentAgentId := h _ (mapGet_some_mem hg)
        rw [he]; exact hidlt
      · exact h p hm
  | deleteAgentOp id =>
    intro p hp
    simp only [applyOp, MemStorage.deleteAgent, mapDelete] at hp ⊢
    exact h p (List.mem_of_mem_filter hp)

theorem agentKeysInv_applyOps (s : MemStorage) (h : agentKeysInv s)
    (ops : List StoreOp) : agentKeysInv (applyOps s ops) := by
  induction ops generalizing s with
  | nil => exact h
  | cons op rest ih =>
    exact ih (applyOp s op) (agentKeysInv_applyOp h op)

/-- On a store whose agent keys are all below the next id, `createAgent`
appends its record at the end of the list. -/
theorem createAgent_getAgents {s : MemStorage} (h : agentKeysInv s)
    (a : InsertAgent) (t : Nat) :
    ((s.createAgent a t).2).getAgents
      = s.getAgents ++ [(s.createAgent a t).1] := by
  have hf : s.agents.any (fun p => p.1 = s.currentAgentId) = false := by
    rw [List.any_eq_false]
    intro p hp
    have := h p hp
    simp only [decide_eq_true_eq]
    omega
  simp [MemStorage.createAgent, MemStorage.getAgents, mapSet_of_any_false _ hf]

/-! ## Claim theorems -/

/-- C1: evaluation of the demo-credential login (the variant draft with
the demo branch) at a concrete clock trace where the millisecond clock
advances between the session-mint read and the cookie-set read: the
handler succeeds with HTTP 200 and no outbound call, and both the stored
session token and the cookie have the synthetic demo form, but they come
from two independent clock reads, so the cookie value is not the token
stored in the created Session. -/
theorem c1_demo_login_eval :
    (loginP3 ("testuser") ("password123") FetchResult.transportError
        (MemStorage.new 0) [10, 20, 30, 40]).status = 200
    ∧ (loginP3 ("testuser") ("password123") FetchResult.transportError
        (MemStorage.new 0) [10, 20, 30, 40]).body = LoginBody.ok 1 ("testuser")
    ∧ (loginP3 ("testuser") ("password123") FetchResult.transportError
        (MemStorage.new 0) [10, 20, 30, 40]).calls = []
    ∧ (mapGet (loginP3 ("testuser") ("password123") FetchResult.transportError
        (MemStorage.new 0) [10, 20, 30, 40]).store.sessions 1).map
        Session.accessToken = some ("demo_token_20")
    ∧ (loginP3 ("testuser") ("password123") FetchResult.transportError
        (MemStorage.new 0) [10, 20, 30, 40]).cookie = some ("demo_token_40")
    ∧ ¬ (loginP3 ("testuser") ("password123") FetchResult.transportError
        (MemStorage.new 0) [10, 20, 30, 40]).cookie = some ("demo_token_20") := by
  decide

/-- C2 counterexample: in the GET /api/agents handler of
`src/server/routes.ts`, a request with a non-empty token whose upstream
list call answers 503 is answered with status 503, not 200 — the claim
as stated fails on that draft. -/
theorem c2_counterexample :
    (getAgentsR1 (some ("tok")) (ListFetch.response 503 (some ("x")))
        (MemStorage.new 0)).status = 503
    ∧ ¬ (getAgentsR1 (some ("tok")) (ListFetch.response 503 (some ("x")))
        (MemStorage.new 0)).status = 200
    ∧ (getAgentsR1 (some ("tok")) (ListFetch.response 503 (some ("x")))
        (MemStorage.new 0)).body
        = ListBody.err ("Failed to fetch agents from API") := by
  decide

/-- C2 (amended): in the fallback variant of GET /api/agents
(`src/unnamed/part_003`), every request carrying a non-empty token whose
upstream list call fails (transport error or non-2xx status) is answered
with HTTP 200 and the Local Record Store agent list, never with an error
status. -/
theorem c2_fallback_list (t : String) (ht : ¬ t = "") (oracle : ListFetch)
    (s : MemStorage)
    (hfail : oracle = ListFetch.transportError
      ∨ ∃ st pb, oracle = ListFetch.response st pb ∧ ¬ (200 ≤ st ∧ st < 300)) :
    (getAgentsP3 (some t) oracle s).status = 200
    ∧ (getAgentsP3 (some t) oracle s).body = ListBody.localList s.getAgents := by
  have htr : isTruthyStr (some t) = true := by simp [isTruthyStr, ht]
  unfold getAgentsP3
  rw [if_neg (by simp [htr])]
  by_cases hd : ((some t : Option String).getD "").startsWith ("demo_token_")
  · rw [if_pos hd]
    exact ⟨rfl, rfl⟩
  · rw [if_neg hd]
    rcases hfail with he | ⟨st, pb, he, hst⟩
    · subst he
      exact ⟨rfl, rfl⟩
    · subst he
      have hko : respOk st = false := by
        simp only [respOk, decide_eq_false_iff_not]
        exact hst
      simp [hko]

/-- C2 witness: a concrete non-empty token and a failed transport give
200 with the local list. -/
theorem c2_fallback_list_witness :
    ((¬ "tok" = "")
      ∧ (ListFetch.transportError = ListFetch.transportError
          ∨ ∃ st pb, ListFetch.transportError = ListFetch.response st pb
              ∧ ¬ (200 ≤ st ∧ st < 300)))
    ∧ ((getAgentsP3 (some ("tok")) ListFetch.transportError (MemStorage.new 0)).status = 200
       ∧ (getAgentsP3 (some ("tok")) ListFetch.transportError (MemStorage.new 0)).body
           = ListBody.localList (MemStorage.new 0).getAgents) :=
  ⟨⟨by decide, Or.inl rfl⟩,
    c2_fallback_list ("tok") (by decide) ListFetch.transportError
      (MemStorage.new 0) (Or.inl rfl)⟩

/-- C3: a POST /api/agents whose upstream create answers 2xx with a body
reporting failure and the error text quota exceeded is answered 400 with
exactly that message, and the store (in particular its agent map) is
left unchanged. -/
theorem c3_quota_exceeded (t : String) (ht : ¬ t = "") (a : AgentIn) (st : Nat)
    (h2 : 200 ≤ st ∧ st < 300) (d : Option Nat) (s : MemStorage) (clock : List Nat) :
    (createAgentR1 (some t) (some a)
        (CreateFetch.response st (some ⟨false, some ("quota exceeded"), d⟩))
        s clock).status = 400
    ∧ (createAgentR1 (some t) (some a)
        (CreateFetch.response st (some ⟨false, some ("quota exceeded"), d⟩))
        s clock).body = CreateBody.err ("quota exceeded")
    ∧ (createAgentR1 (some t) (some a)
        (CreateFetch.response st (some ⟨false, some ("quota exceeded"), d⟩))
        s clock).store = s := by
  have htr : isTruthyStr (some t) = true := by simp [isTruthyStr, ht]
  have hok : respOk st = true := by
    simp only [respOk, decide_eq_true_eq]
    exact h2
  unfold createAgentR1
  simp [htr, hok, jsOrNull, isTruthyStr, ht]

/-- C3 witness: concrete token, body, 200 upstream status. -/
theorem c3_quota_exceeded_witness :
    ((¬ "tok" = "") ∧ (200 ≤ 200 ∧ 200 < 300))
    ∧ ((createAgentR1 (some ("tok")) (some ⟨"n", "d", "f", "c"⟩)
          (CreateFetch.response 200 (some ⟨false, some ("quota exceeded"), none⟩))
          (MemStorage.new 0) []).status = 400
       ∧ (createAgentR1 (some ("tok")) (some ⟨"n", "d", "f", "c"⟩)
          (CreateFetch.response 200 (some ⟨false, some ("quota exceeded"), none⟩))
          (MemStorage.new 0) []).body = CreateBody.err ("quota exceeded")
       ∧ (createAgentR1 (some ("tok")) (some ⟨"n", "d", "f", "c"⟩)
          (CreateFetch.response 200 (some ⟨false, some ("quota exceeded"), none⟩))
          (MemStorage.new 0) []).store = MemStorage.new 0) :=
  ⟨⟨by decide, by decide⟩,
    c3_quota_exceeded ("tok") (by decide) ⟨"n", "d", "f", "c"⟩ 200 (by decide)
      none (MemStorage.new 0) []⟩

/-- C4: for an agent id absent from the store, `updateAgent` returns
`undefined` and leaves the store untouched, and the PATCH handler
answers 404 with the store unchanged. -/
theorem c4_update_absent (s : MemStorage) (id : Nat) (p : AgentPatch)
    (t : String) (ht : ¬ t = "") (oracle : CreateFetch)
    (h : mapGet s.agents id = none) :
    (s.updateAgent id p).1 = none
    ∧ (s.updateAgent id p).2 = s
    ∧ (updateAgentR1 (some t) id (some p) oracle s).status = 404
    ∧ (updateAgentR1 (some t) id (some p) oracle s).store = s := by
  have htr : isTruthyStr (some t) = true := by simp [isTruthyStr, ht]
  unfold MemStorage.updateAgent updateAgentR1 MemStorage.getAgent
  rw [h]
  rw [if_neg (by simp [htr])]
  exact ⟨rfl, rfl, rfl, rfl⟩

/-- C4 witness: id 5 is absent from a fresh store. -/
theorem c4_update_absent_witness :
    ((¬ "t" = "") ∧ mapGet (MemStorage.new 0).agents 5 = none)
    ∧ (((MemStorage.new 0).updateAgent 5 { description := some ("x") }).1 = none
       ∧ ((MemStorage.new 0).updateAgent 5 { description := some ("x") }).2
           = MemStorage.new 0
       ∧ (updateAgentR1 (some ("t")) 5 (some { description := some ("x") })
            CreateFetch.transportError (MemStorage.new 0)).status = 404
       ∧ (updateAgentR1 (some ("t")) 5 (some { description := some ("x") })
            CreateFetch.transportError (MemStorage.new 0)).store = MemStorage.new 0) :=
  ⟨⟨by decide, by decide⟩,
    c4_update_absent (MemStorage.new 0) 5 { description := some ("x") } ("t")
      (by decide) CreateFetch.transportError (by decide)⟩

/-- C5: the sessions map of any store reachable from a fresh one by any
operation sequence holds at most one Session per userId, and after two
consecutive `createSession` calls for the same userId exactly one
Session is stored for it, holding the accessToken of the second call. -/
theorem c5_session_uniqueness (ops : List StoreOp) (now u : Nat)
    (a1 a2 : String) (r1 r2 : Option String) (e1 e2 t1 t2 : Nat) :
    (∀ v, countKey (applyOps (MemStorage.new now) ops).sessions v ≤ 1)
    ∧ countKey (((applyOps (MemStorage.new now) ops).createSession
          ⟨u, a1, r1, e1⟩ t1).2.createSession ⟨u, a2, r2, e2⟩ t2).2.sessions u = 1
    ∧ (mapGet (((applyOps (MemStorage.new now) ops).createSession
          ⟨u, a1, r1, e1⟩ t1).2.createSession ⟨u, a2, r2, e2⟩ t2).2.sessions u).map
        Session.accessToken = some a2 := by
  have hinv : sessionsInv (applyOps (MemStorage.new now) ops) :=
    sessionsInv_applyOps _ (sessionsInv_new now) ops
  refine ⟨hinv, ?_, ?_⟩
  · show countKey (mapSet (mapSet (applyOps (MemStorage.new now) ops).sessions u _) u _) u = 1
    exact countKey_mapSet_self _ (countKey_mapSet_self _ (hinv u)).le
  · show (mapGet (mapSet (mapSet (applyOps (MemStorage.new now) ops).sessions u _) u _) u).map
      Session.accessToken = some a2
    rw [mapGet_mapSet_self]
    rfl

/-- C6: a partial update providing only `description` returns the
shallow merge: the description becomes the new value, while `name`,
`firstMessage`, `createdBy` and `externalId` keep the values of the
prior stored record, and exactly that merged record is stored back. -/
theorem c6_partial_update_frame (s : MemStorage) (id : Nat) (a : Agent) (d : String)
    (h : mapGet s.agents id = some a) :
    (s.updateAgent id { description := some d }).1
        = some (mergeAgent a { description := some d })
    ∧ (mergeAgent a { description := some d }).description = d
    ∧ (mergeAgent a { description := some d }).name = a.name
    ∧ (mergeAgent a { description := some d }).firstMessage = a.firstMessage
    ∧ (mergeAgent a { description := some d }).createdBy = a.createdBy
    ∧ (mergeAgent a { description := some d }).externalId = a.externalId
    ∧ mapGet (s.updateAgent id { description := some d }).2.agents id
        = some (mergeAgent a { description := some d }) := by
  unfold MemStorage.updateAgent
  rw [h]
  refine ⟨rfl, rfl, rfl, rfl, rfl, rfl, ?_⟩
  exact mapGet_mapSet_self _ _ _

/-- C6 witness: a store holding one concrete agent at key 7. -/
theorem c6_partial_update_frame_witness :
    mapGet (MemStorage.mk [] [] [(7, ⟨7, some ("n"), "d0", some ("f"), some ("c"),
        none, none, none, some ("e"), 0⟩)] 1 1 8).agents 7
      = some ⟨7, some ("n"), "d0", some ("f"), some ("c"), none, none, none,
          some ("e"), 0⟩
    ∧ (((MemStorage.mk [] [] [(7, ⟨7, some ("n"), "d0", some ("f"), some ("c"),
          none, none, none, some ("e"), 0⟩)] 1 1 8).updateAgent 7
          { description := some ("new") }).1
        = some (mergeAgent ⟨7, some ("n"), "d0", some ("f"), some ("c"), none,
            none, none, some ("e"), 0⟩ { description := some ("new") })
       ∧ (mergeAgent ⟨7, some ("n"), "d0", some ("f"), some ("c"), none, none,
            none, some ("e"), 0⟩ { description := some ("new") }).description = "new"
       ∧ (mergeAgent ⟨7, some ("n"), "d0", some ("f"), some ("c"), none, none,
            none, some ("e"), 0⟩ { description := some ("new") }).name
           = (⟨7, some ("n"), "d0", some ("f"), some ("c"), none, none, none,
              some ("e"), 0⟩ : Agent).name
       ∧ (mergeAgent ⟨7, some ("n"), "d0", some ("f"), some ("c"), none, none,
            none, some ("e"), 0⟩ { description := some ("new") }).firstMessage
           = (⟨7, some ("n"), "d0", some ("f"), some ("c"), none, none, none,
              some ("e"), 0⟩ : Agent).firstMessage
       ∧ (mergeAgent ⟨7, some ("n"), "d0", some ("f"), some ("c"), none, none,
            none, some ("e"), 0⟩ { description := some ("new") }).createdBy
           = (⟨7, some ("n"), "d0", some ("f"), some ("c"), none, none, none,
              some ("e"), 0⟩ : Agent).createdBy
       ∧ (mergeAgent ⟨7, some ("n"), "d0", some ("f"), some ("c"), none, none,
            none, some ("e"), 0⟩ { description := some ("new") }).externalId
           = (⟨7, some ("n"), "d0", some ("f"), some ("c"), none, none, none,
              some ("e"), 0⟩ : Agent).externalId
       ∧ mapGet ((MemStorage.mk [] [] [(7, ⟨7, some ("n"), "d0", some ("f"),
            some ("c"), none, none, none, some ("e"), 0⟩)] 1 1 8).updateAgent 7
            { description := some ("new") }).2.agents 7
           = some (mergeAgent ⟨7, some ("n"), "d0", some ("f"), some ("c"), none,
              none, none, some ("e"), 0⟩ { description := some ("new") })) :=
  ⟨by decide,
    c6_partial_update_frame _ 7 _ ("new") (by decide)⟩

/-- C7 counterexample: a freshly constructed store is pre-seeded with
three demo records, so after createAgent(A), createAgent(B),
deleteAgent(A.id) the list has four records, not exactly [B]. -/
theorem c7_counterexample :
    ((((MemStorage.new 0).createAgent ⟨"A", "dA", "fA", "cA", none⟩ 1).2.createAgent
        ⟨"B", "dB", "fB", "cB", none⟩ 2).2.deleteAgent
        (((MemStorage.new 0).createAgent ⟨"A", "dA", "fA", "cA", none⟩ 1).1.id)).getAgents.length = 4
    ∧ ¬ ((((MemStorage.new 0).createAgent ⟨"A", "dA", "fA", "cA", none⟩ 1).2.createAgent
        ⟨"B", "dB", "fB", "cB", none⟩ 2).2.deleteAgent
        (((MemStorage.new 0).createAgent ⟨"A", "dA", "fA", "cA", none⟩ 1).1.id)).getAgents
      = [(((MemStorage.new 0).createAgent ⟨"A", "dA", "fA", "cA", none⟩ 1).2.createAgent
          ⟨"B", "dB", "fB", "cB", none⟩ 2).1] := by
  decide

/-- C7 (amended): starting from a freshly constructed store, the
sequence createAgent(A), createAgent(B), deleteAgent(A.id) followed by
listAgents returns the three pre-seeded demo records followed by exactly
[B] (B receiving id 5); and on any store reachable from a fresh one,
createAgent appends its record at the end of the list, so listAgents
returns records in insertion order. -/
theorem c7_list_after_delete (now tA tB : Nat) (A B : InsertAgent)
    (ops : List StoreOp) (a : InsertAgent) (t : Nat) :
    ((((MemStorage.new now).createAgent A tA).2.createAgent B tB).2.deleteAgent
        (((MemStorage.new now).createAgent A tA).1.id)).getAgents
      = (MemStorage.new now).getAgents
          ++ [(((MemStorage.new now).createAgent A tA).2.createAgent B tB).1]
    ∧ (((MemStorage.new now).createAgent A tA).2.createAgent B tB).1.id = 5
    ∧ (MemStorage.new now).getAgents.length = 3
    ∧ ((applyOps (MemStorage.new now) ops).createAgent a t).2.getAgents
        = (applyOps (MemStorage.new now) ops).getAgents
          ++ [((applyOps (MemStorage.new now) ops).createAgent a t).1] := by
  refine ⟨?_, rfl, rfl, ?_⟩
  · rfl
  · exact createAgent_getAgents
      (agentKeysInv_applyOps _ (agentKeysInv_new now) ops) a t

/-- C8: for a 2xx upstream login response that parses, the routes.ts
login handler accepts an access token found at the nested location
(`data.accessToken`), or, failing that, at the flat location
(`access_token`); only when neither location yields a (truthy) token
does it answer 401 with the no-access-token message. -/
theorem c8_token_extraction (username password : String)
    (hu : ¬ username = "") (hp : ¬ password = "") (st : Nat)
    (h2 : 200 ≤ st ∧ st < 300) (j : AuthJson) (s : MemStorage) (clock : List Nat) :
    (isTruthyStr j.data_accessToken = true →
      (loginR1 username password (FetchResult.response st (some j)) s clock).status = 200
      ∧ (loginR1 username password (FetchResult.response st (some j)) s clock).cookie
          = some (j.data_accessToken.getD ""))
    ∧ (isTruthyStr j.data_accessToken = false → isTruthyStr j.access_token = true →
      (loginR1 username password (FetchResult.response st (some j)) s clock).status = 200
      ∧ (loginR1 username password (FetchResult.response st (some j)) s clock).cookie
          = some (j.access_token.getD ""))
    ∧ (isTruthyStr j.data_accessToken = false → isTruthyStr j.access_token = false →
      (loginR1 username password (FetchResult.response st (some j)) s clock).status = 401
      ∧ (loginR1 username password (FetchResult.response st (some j)) s clock).body
          = LoginBody.err ("Authentication failed. No access token received.")) := by
  have hok : respOk st = true := by
    simp only [respOk, decide_eq_true_eq]
    exact h2
  refine ⟨?_, ?_, ?_⟩
  · intro hA
    unfold loginR1
    simp only [hu, hp, or_self, if_false, hok, not_true, jsOrStr, hA, if_true]
    cases s.getUserByUsername username <;> simp
  · intro hA hB
    unfold loginR1
    simp only [hu, hp, or_self, if_false, hok, not_true, jsOrStr, hA, hB, if_true]
    cases s.getUserByUsername username <;> simp [hA, hB]
  · intro hA hB
    unfold loginR1
    simp [hu, hp, hok, jsOrStr, hA, hB]

/-- C8 witness: a flat-shape body with a non-empty access_token is
accepted, at concrete inputs. -/
theorem c8_token_extraction_witness :
    ((¬ "u" = "") ∧ (¬ "p" = "") ∧ (200 ≤ 200 ∧ 200 < 300))
    ∧ ((isTruthyStr (AuthJson.mk none none (some ("AT")) (some ("RT"))).data_accessToken = true →
        (loginR1 ("u") ("p") (FetchResult.response 200
            (some (AuthJson.mk none none (some ("AT")) (some ("RT")))))
            (MemStorage.new 0) []).status = 200
        ∧ (loginR1 ("u") ("p") (FetchResult.response 200
            (some (AuthJson.mk none none (some ("AT")) (some ("RT")))))
            (MemStorage.new 0) []).cookie
            = some ((AuthJson.mk none none (some ("AT")) (some ("RT"))).data_accessToken.getD ""))
      ∧ (isTruthyStr (AuthJson.mk none none (some ("AT")) (some ("RT"))).data_accessToken = false →
          isTruthyStr (AuthJson.mk none none (some ("AT")) (some ("RT"))).access_token = true →
        (loginR1 ("u") ("p") (FetchResult.response 200
            (some (AuthJson.mk none none (some ("AT")) (some ("RT")))))
            (MemStorage.new 0) []).status = 200
        ∧ (loginR1 ("u") ("p") (FetchResult.response 200
            (some (AuthJson.mk none none (some ("AT")) (some ("RT")))))
            (MemStorage.new 0) []).cookie
            = some ((AuthJson.mk none none (some ("AT")) (some ("RT"))).access_token.getD ""))
      ∧ (isTruthyStr (AuthJson.mk none none (some ("AT")) (some ("RT"))).data_accessToken = false →
          isTruthyStr (AuthJson.mk none none (some ("AT")) (some ("RT"))).access_token = false →
        (loginR1 ("u") ("p") (FetchResult.response 200
            (some (AuthJson.mk none none (some ("AT")) (some ("RT")))))
            (MemStorage.new 0) []).status = 401
        ∧ (loginR1 ("u") ("p") (FetchResult.response 200
            (some (AuthJson.mk none none (some ("AT")) (some ("RT")))))
            (MemStorage.new 0) []).body
            = LoginBody.err ("Authentication failed. No access token received."))) :=
  ⟨⟨by decide, by decide, by decide⟩,
    c8_token_extraction ("u") ("p") (by decide) (by decide) 200 (by decide)
      (AuthJson.mk none none (some ("AT")) (some ("RT"))) (MemStorage.new 0) []⟩

/-- C9: GET /api/auth/me with any non-empty auth_token cookie answers
200 with authenticated true, and the answer is identical across any two
states of the session store — the store is never consulted, so expired
or never-issued token values are accepted. -/
theorem c9_me_ignores_sessions (t : String) (ht : ¬ t = "") (s1 s2 : MemStorage) :
    authMeR1 (some t) s1 = ⟨200, MeBody.authenticated true⟩
    ∧ authMeR1 (some t) s1 = authMeR1 (some t) s2 := by
  have htr : isTruthyStr (some t) = true := by simp [isTruthyStr, ht]
  unfold authMeR1
  rw [if_neg (by simp [htr])]
  exact ⟨rfl, rfl⟩

/-- C9 witness: a stale token value against a fresh store and against a
store holding a session with a different token. -/
theorem c9_me_ignores_sessions_witness :
    (¬ "stale" = "")
    ∧ (authMeR1 (some ("stale")) (MemStorage.new 0) = ⟨200, MeBody.authenticated true⟩
       ∧ authMeR1 (some ("stale")) (MemStorage.new 0)
           = authMeR1 (some ("stale"))
               ((MemStorage.new 0).createSession ⟨1, "tok", none, 0⟩ 0).2) :=
  ⟨by decide,
    c9_me_ignores_sessions ("stale") (by decide) (MemStorage.new 0)
      ((MemStorage.new 0).createSession ⟨1, "tok", none, 0⟩ 0).2⟩

/-- C10: a freshly constructed MemStorage is pre-seeded with exactly
three demo agent records with ids 1, 2, 3 and externalId null, and the
first createAgent call returns a record with id 4. -/
theorem c10_seeded_store (now t : Nat) (a : InsertAgent) :
    (MemStorage.new now).getAgents.length = 3
    ∧ (MemStorage.new now).getAgents.map Agent.id = [1, 2, 3]
    ∧ (∀ ag ∈ (MemStorage.new now).getAgents, ag.externalId = none)
    ∧ ((MemStorage.new now).createAgent a t).1.id = 4 := by
  refine ⟨rfl, rfl, ?_, rfl⟩
  intro ag hag
  have h2 : ag.externalId ∈ ((MemStorage.new now).getAgents.map Agent.externalId) :=
    List.mem_map_of_mem _ hag
  rw [show (MemStorage.new now).getAgents.map Agent.externalId
      = [none, none, none] from rfl] at h2
  simpa using h2
